import Mathlib

/-!
# Verification of the js-postgres statement builder and value decoders

A shallow embedding of the repository's core logic:

* the `Connection.insert` / `Connection.update` / `Connection.delete`
  statement builders together with `addWhereToSQL` / `addReturningToSQL`
  (source: `connection.ts`),
* the `withTx` transaction helper (source: `connection.ts`),
* the value decoders and the decoder registry (source: `parser.ts`).

JavaScript dynamic values handed to the builders are modelled by the
inductive type `JSVal`.  The relevant dynamic operations are modelled
faithfully:

* `typeof` (note that in JavaScript `typeof null` is `"object"`),
* property access (`v.raw`, `v.value`, ...), which throws a `TypeError`
  when performed on `null` or `undefined` and yields `undefined` when the
  property is absent,
* loose comparison against `null` (`v != null` is false exactly for
  `null` and `undefined`),
* `Array.prototype.push` (modelled by appending to a `List`) and
  `Array.prototype.join` (modelled by `joinStrs`).

Fallible JavaScript evaluation is modelled by `Except String`, the error
string naming the thrown exception class.  The identifier-escaping
collaborator (`client.escapeIdentifier`) is a function parameter `esc`;
the external `pg` / `postgres-array` / `postgres-bytea` collaborators are
likewise parameters where the source delegates to them.  The builders
stop at the point where the source hands `(sql.join(""), params)` to the
transport, returning that pair.
-/

namespace JsPostgres

/-- Model of a dynamically typed JavaScript value as passed to the
builder APIs (`Record<string, any>` values, WHERE-clause entries).
Objects are finite association lists of named fields. -/
inductive JSVal where
  | vNull
  | vUndefined
  | vNum (n : Int)
  | vStr (s : String)
  | vBool (b : Bool)
  | vObj (fields : List (String × JSVal))

/-- JavaScript `typeof`.  `typeof null` is `"object"`. -/
def typeofJS : JSVal → String
  | .vNull => "object"
  | .vUndefined => "undefined"
  | .vNum _ => "number"
  | .vStr _ => "string"
  | .vBool _ => "boolean"
  | .vObj _ => "object"

/-- Field lookup inside an object's field list; a missing field reads as
`undefined`. -/
def lookupField : List (String × JSVal) → String → JSVal
  | [], _ => .vUndefined
  | (k, v) :: rest, key => if k == key then v else lookupField rest key

/-- JavaScript property access `v.key`: throws a `TypeError` on `null`
and `undefined`, yields the field (or `undefined`) on objects, and
`undefined` on other primitives. -/
def getField : JSVal → String → Except String JSVal
  | .vNull, _ => .error "TypeError"
  | .vUndefined, _ => .error "TypeError"
  | .vObj fs, key => .ok (lookupField fs key)
  | _, _ => .ok .vUndefined

/-- JavaScript loose comparison `v != null`: false exactly for `null`
and `undefined`. -/
def looseNeNull : JSVal → Bool
  | .vNull => false
  | .vUndefined => false
  | _ => true

/-- True unless the value is the JavaScript `null`. -/
def notNull : JSVal → Bool
  | .vNull => false
  | _ => true

/-- `Array.prototype.join(sep)` on a list of strings. -/
def joinStrs (sep : String) : List String → String
  | [] => ""
  | [x] => x
  | x :: y :: rest => x ++ sep ++ joinStrs sep (y :: rest)

/-- A double-quoting identifier escaper, the behavior the claims assume
for the `escapeIdentifier` collaborator on identifiers that contain no
quote characters. -/
def escDQ (s : String) : String := "\"" ++ s ++ "\""

/-- The raw-fragment classification performed by `insert` and `update`:
`typeof v === 'object' && typeof v.raw === 'string'`.  Returns the raw
text when the value is a raw-fragment marker and `none` when it is to be
bound as a parameter; propagates the `TypeError` that the property
access `v.raw` throws when `v` is `null` (since `typeof null` is
`"object"`). -/
def rawCheck (v : JSVal) : Except String (Option String) :=
  if typeofJS v == "object" then
    match getField v "raw" with
    | .error e => .error e
    | .ok (.vStr s) => .ok (some s)
    | .ok _ => .ok none
  else
    .ok none

/-- Total classification of a non-null value: the raw text exactly when
the value is an object whose `raw` field holds a string. -/
def rawTextOf : JSVal → Option String
  | .vObj fs =>
    match lookupField fs "raw" with
    | .vStr s => some s
    | _ => none
  | _ => none

/-- `ReturningOptions`: an expression and an optional alias (the source
field is named `as`). -/
structure ReturningOptions where
  expression : String
  asName : Option String

/-- `InsertOptions` from the source. -/
structure InsertOptions where
  conflictAction : Option String
  conflictKeys : Option (List String)
  returning : Option (List ReturningOptions)

/-- `UpdateOptions` from the source. -/
structure UpdateOptions where
  returning : Option (List ReturningOptions)

/-- `DeleteOptions` from the source. -/
structure DeleteOptions where
  returning : Option (List ReturningOptions)

/-- The internal `ConflictAction` enum of the source. -/
inductive ConflictAction where
  | None
  | Ignore
  | Update
deriving DecidableEq, BEq

/-- Conflict-action parsing at the top of `insert`: `'update'` and
`'ignore'` are recognized, anything else (or absent options) means
`None`. -/
def parseConflictAction (options : Option InsertOptions) : ConflictAction :=
  match options with
  | none => ConflictAction.None
  | some o =>
    match o.conflictAction with
    | some a =>
      if a == "update" then ConflictAction.Update
      else if a == "ignore" then ConflictAction.Ignore
      else ConflictAction.None
    | none => ConflictAction.None

/-- `options!.conflictKeys!.includes(columnName)`: the source asserts
both options objects non-null; calling `.includes` on an `undefined`
`conflictKeys` throws a `TypeError`. -/
def includesKey (cks : Option (List String)) (columnName : String) : Except String Bool :=
  match cks with
  | none => .error "TypeError"
  | some ks => .ok (ks.contains columnName)

/-- Accumulator for the column loop of `insert`: the five arrays the
source pushes into. -/
structure InsertAcc where
  columns : List String
  columnValues : List String
  params : List JSVal
  conflictColumns : List String
  upsertColumns : List String

/-- One iteration of the `for (const columnName in values)` loop of
`insert`: escape the identifier, classify raw vs bound, emit the VALUES
entry (either `$<params.length>` after pushing the value, or the raw
text), and collect conflict/upsert columns according to the conflict
action. -/
def insertStep (esc : String → String) (ca : ConflictAction) (cks : Option (List String))
    (acc : InsertAcc) (columnName : String) (v : JSVal) : Except String InsertAcc :=
  let sanitized := esc columnName
  let acc1 := { acc with columns := acc.columns ++ [sanitized] }
  match rawCheck v with
  | .error e => .error e
  | .ok none =>
    let params2 := acc1.params ++ [v]
    let acc2 := { acc1 with
      params := params2,
      columnValues := acc1.columnValues ++ ["$" ++ toString params2.length] }
    match ca with
    | ConflictAction.None => .ok acc2
    | ConflictAction.Ignore =>
      match includesKey cks columnName with
      | .error e => .error e
      | .ok true => .ok { acc2 with conflictColumns := acc2.conflictColumns ++ [sanitized] }
      | .ok false => .ok acc2
    | ConflictAction.Update =>
      match includesKey cks columnName with
      | .error e => .error e
      | .ok true => .ok { acc2 with conflictColumns := acc2.conflictColumns ++ [sanitized] }
      | .ok false => .ok { acc2 with
          upsertColumns := acc2.upsertColumns ++ [sanitized ++ " = $" ++ toString params2.length] }
  | .ok (some rtext) =>
    let acc2 := { acc1 with columnValues := acc1.columnValues ++ [rtext] }
    match ca with
    | ConflictAction.None => .ok acc2
    | ConflictAction.Ignore =>
      match includesKey cks columnName with
      | .error e => .error e
      | .ok true => .ok { acc2 with conflictColumns := acc2.conflictColumns ++ [sanitized] }
      | .ok false => .ok acc2
    | ConflictAction.Update =>
      match includesKey cks columnName with
      | .error e => .error e
      | .ok true => .ok { acc2 with conflictColumns := acc2.conflictColumns ++ [sanitized] }
      | .ok false => .ok { acc2 with
          upsertColumns := acc2.upsertColumns ++ [sanitized ++ " = " ++ rtext] }

/-- The full column loop of `insert`. -/
def insertLoop (esc : String → String) (ca : ConflictAction) (cks : Option (List String)) :
    List (String × JSVal) → InsertAcc → Except String InsertAcc
  | [], acc => .ok acc
  | (c, v) :: rest, acc =>
    match insertStep esc ca cks acc c v with
    | .error e => .error e
    | .ok acc2 => insertLoop esc ca cks rest acc2

/-- `addReturningToSQL`: append ` RETURNING expr [AS escapedAlias], ...`
when a returning list is present.  The source tests `if (item.as)`,
which is falsy for an empty alias. -/
def addReturningToSQL (esc : String → String) (sql : List String)
    (returning : Option (List ReturningOptions)) : List String :=
  match returning with
  | none => sql
  | some items =>
    let expressions := items.map fun item =>
      match item.asName with
      | some a => if a == "" then item.expression else item.expression ++ " AS " ++ esc a
      | none => item.expression
    sql ++ [" RETURNING ", joinStrs ", " expressions]

/-- `Connection.insert`, up to the point where the built
`(sql.join(""), params)` pair is handed to the query transport. -/
def insert (esc : String → String) (tableName : String) (values : List (String × JSVal))
    (options : Option InsertOptions) : Except String (String × List JSVal) :=
  let ca := parseConflictAction options
  let cks := match options with
    | some o => o.conflictKeys
    | none => none
  match insertLoop esc ca cks values ⟨[], [], [], [], []⟩ with
  | .error e => .error e
  | .ok acc =>
    let sql1 : List String :=
      ["INSERT INTO " ++ esc tableName ++ " (", joinStrs ", " acc.columns,
       ") VALUES (", joinStrs ", " acc.columnValues]
    let sql2 :=
      if ca == ConflictAction.Ignore || ca == ConflictAction.Update then
        (sql1 ++ [") ON CONFLICT (", joinStrs "," acc.conflictColumns]) ++
          (match ca with
           | ConflictAction.Ignore => [") DO NOTHING"]
           | ConflictAction.Update => [") DO UPDATE SET ", joinStrs ", " acc.upsertColumns]
           | ConflictAction.None => [])
      else
        sql1 ++ [")"]
    let sql3 := addReturningToSQL esc sql2 (match options with
      | some o => o.returning
      | none => none)
    .ok (joinStrs "" sql3, acc.params)

/- The `WhereConditionOperator` enum values of the source. -/
namespace WhereConditionOperator

def Equal : Int := 0
def NotEqual : Int := 1
def Less : Int := 2
def LessOrEqual : Int := 3
def Greater : Int := 4
def GreaterOrEqual : Int := 5
def Between : Int := 6

end WhereConditionOperator

/-- Strict equality (`===`) of a dynamic value against a numeric enum
constant, as performed by the `switch` in `addWhereToSQL`. -/
def strictEqNum (v : JSVal) (op : Int) : Bool :=
  match v with
  | .vNum n => n == op
  | _ => false

/-- One iteration of the `for (const whereItem in where)` loop of
`addWhereToSQL`.  A structured condition object (an `"object"` whose
`value` and `operator` fields are both loosely non-null) is dispatched
through the operator switch; every other entry is pushed whole onto the
parameter list and compared with `=`.  A `switch` miss (an operator that
strictly equals none of the enum constants) pushes the value but emits
no condition, mirroring the missing `default` case. -/
def whereStep (esc : String → String) (columnName : String) (v : JSVal)
    (conds : List String) (params : List JSVal) : Except String (List String × List JSVal) :=
  let sanitized := esc columnName
  if typeofJS v == "object" then
    match getField v "value" with
    | .error e => .error e
    | .ok fv =>
      match getField v "operator" with
      | .error e => .error e
      | .ok fop =>
        if looseNeNull fv && looseNeNull fop then
          let params2 := params ++ [fv]
          if strictEqNum fop WhereConditionOperator.Equal then
            .ok (conds ++ [sanitized ++ " = $" ++ toString params2.length], params2)
          else if strictEqNum fop WhereConditionOperator.NotEqual then
            .ok (conds ++ [sanitized ++ " <> $" ++ toString params2.length], params2)
          else if strictEqNum fop WhereConditionOperator.Less then
            .ok (conds ++ [sanitized ++ " < $" ++ toString params2.length], params2)
          else if strictEqNum fop WhereConditionOperator.LessOrEqual then
            .ok (conds ++ [sanitized ++ " <= $" ++ toString params2.length], params2)
          else if strictEqNum fop WhereConditionOperator.Greater then
            .ok (conds ++ [sanitized ++ " > $" ++ toString params2.length], params2)
          else if strictEqNum fop WhereConditionOperator.GreaterOrEqual then
            .ok (conds ++ [sanitized ++ " >= $" ++ toString params2.length], params2)
          else if strictEqNum fop WhereConditionOperator.Between then
            match getField v "betweenUpperValue" with
            | .error e => .error e
            | .ok up =>
              let params3 := params2 ++ [up]
              .ok (conds ++ [sanitized ++ " BETWEEN $" ++ toString (params3.length - 1) ++
                    " AND $" ++ toString params3.length], params3)
          else
            .ok (conds, params2)
        else
          let params2 := params ++ [v]
          .ok (conds ++ [sanitized ++ " = $" ++ toString params2.length], params2)
  else
    let params2 := params ++ [v]
    .ok (conds ++ [sanitized ++ " = $" ++ toString params2.length], params2)

/-- The full WHERE-entry loop of `addWhereToSQL`. -/
def whereLoop (esc : String → String) :
    List (String × JSVal) → List String → List JSVal → Except String (List String × List JSVal)
  | [], conds, params => .ok (conds, params)
  | (c, v) :: rest, conds, params =>
    match whereStep esc c v conds params with
    | .error e => .error e
    | .ok (conds2, params2) => whereLoop esc rest conds2 params2

/-- `addWhereToSQL`: when a where clause is present, process its entries
and push `" WHERE "` followed by the conditions joined with `", "`. -/
def addWhereToSQL (esc : String → String) (sql : List String) (params : List JSVal)
    (whereC : Option (List (String × JSVal))) : Except String (List String × List JSVal) :=
  match whereC with
  | none => .ok (sql, params)
  | some entries =>
    match whereLoop esc entries [] params with
    | .error e => .error e
    | .ok (conds, params2) => .ok (sql ++ [" WHERE ", joinStrs ", " conds], params2)

/-- One iteration of the SET-clause loop of `update`: `escapedColumn =
$<params.length>` after pushing a bound value, or `escapedColumn =
<rawFragment>` for a raw marker. -/
def updateStep (esc : String → String) (acc : List String × List JSVal)
    (columnName : String) (v : JSVal) : Except String (List String × List JSVal) :=
  let sanitized := esc columnName
  match rawCheck v with
  | .error e => .error e
  | .ok none =>
    let params2 := acc.2 ++ [v]
    .ok (acc.1 ++ [sanitized ++ " = $" ++ toString params2.length], params2)
  | .ok (some rtext) =>
    .ok (acc.1 ++ [sanitized ++ " = " ++ rtext], acc.2)

/-- The full SET-clause loop of `update`. -/
def updateLoop (esc : String → String) :
    List (String × JSVal) → (List String × List JSVal) → Except String (List String × List JSVal)
  | [], acc => .ok acc
  | (c, v) :: rest, acc =>
    match updateStep esc acc c v with
    | .error e => .error e
    | .ok acc2 => updateLoop esc rest acc2

/-- `Connection.update`, up to the built `(sql.join(""), params)`
pair. -/
def update (esc : String → String) (tableName : String) (values : List (String × JSVal))
    (whereC : Option (List (String × JSVal))) (options : Option UpdateOptions) :
    Except String (String × List JSVal) :=
  match updateLoop esc values ([], []) with
  | .error e => .error e
  | .ok (columnValues, params) =>
    let sql1 : List String := ["UPDATE " ++ esc tableName ++ " SET ", joinStrs ", " columnValues]
    match addWhereToSQL esc sql1 params whereC with
    | .error e => .error e
    | .ok (sql2, params2) =>
      let sql3 := addReturningToSQL esc sql2 (match options with
        | some o => o.returning
        | none => none)
      .ok (joinStrs "" sql3, params2)

/-- `Connection.delete`, up to the built `(sql.join(""), params)`
pair. -/
def delete (esc : String → String) (tableName : String)
    (whereC : Option (List (String × JSVal))) (options : Option DeleteOptions) :
    Except String (String × List JSVal) :=
  let sql1 : List String := ["DELETE FROM " ++ esc tableName]
  match addWhereToSQL esc sql1 [] whereC with
  | .error e => .error e
  | .ok (sql2, params2) =>
    let sql3 := addReturningToSQL esc sql2 (match options with
      | some o => o.returning
      | none => none)
    .ok (joinStrs "" sql3, params2)

/-- The observable behavior of the collaborators and the unit of work
during one `withTx` run: the outcome of each control statement the
connection may issue, the trace of statements the unit of work itself
issues, and the unit of work's outcome.  `rollbackRes` is the outcome of
the `ROLLBACK` statement; `withTx` ignores it, which is exactly the
source's empty `catch (err2)` block. -/
structure TxBehavior (ε ρ : Type) where
  beginRes : Except ε Unit
  cbTrace : List String
  cbRes : Except ε ρ
  commitRes : Except ε Unit
  rollbackRes : Except ε Unit

/-- `Connection.withTx`: issue `BEGIN`; run the unit of work; on success
issue `COMMIT` and return the result; on a failure of the unit of work
(or of `COMMIT`) issue `ROLLBACK`, swallow the rollback's own outcome,
and rethrow the original error.  Returns the trace of statements issued
on the connection together with the overall outcome. -/
def withTx {ε ρ : Type} (b : TxBehavior ε ρ) : List String × Except ε ρ :=
  match b.beginRes with
  | .error e => (["BEGIN"], .error e)
  | .ok _ =>
    match b.cbRes with
    | .ok r =>
      match b.commitRes with
      | .ok _ => ("BEGIN" :: b.cbTrace ++ ["COMMIT"], .ok r)
      | .error e => ("BEGIN" :: b.cbTrace ++ ["COMMIT", "ROLLBACK"], .error e)
    | .error e => ("BEGIN" :: b.cbTrace ++ ["ROLLBACK"], .error e)

/-!
## Value decoders (`parser.ts`)

Wire text arriving at a decoder is `Option String`, with `none` standing
for the wire-level null sentinel that each source function guards with
`val === null`.  Decoded scalar results are collected in `ScalarVal`;
the external `moment.utc`, `parseFloat` and `BigNumber` collaborators
are represented symbolically by constructors carrying the text they were
given (the claims under verification only concern the null guards and
the integer decoders, whose arithmetic is modelled exactly).
-/

/-- A decoded scalar value. -/
inductive ScalarVal where
  | null
  | momentUtc (s : String)
  | num (n : Int)
  | nan
  | big (n : Int)
  | floatOf (s : String)
  | bigNumber (s : String)
  | bool (b : Bool)
deriving DecidableEq

/-- JavaScript whitespace test for the characters relevant to numeric
string parsing (space, tab, line feed, carriage return, vertical tab,
form feed; the exotic Unicode space characters are not modelled). -/
def isJsWs (c : Char) : Bool :=
  c == ' ' || c == '\t' || c == '\n' || c == '\r' || c == '\x0b' || c == '\x0c'

/-- Drop leading JavaScript whitespace. -/
def skipWs : List Char → List Char
  | [] => []
  | c :: rest => if isJsWs c then skipWs rest else c :: rest

/-- Numeric value of a list of decimal digit characters. -/
def digitsToNat (b : Nat) : List Nat → Nat :=
  List.foldl (fun a d => a * b + d) 0

/-- The digit value of a character in base `b` (`b` is 2, 8, 10 or 16),
or `none` when the character is not a digit of that base. -/
def digitVal (b : Nat) (c : Char) : Option Nat :=
  let v : Option Nat :=
    if '0' ≤ c && c ≤ '9' then some (c.toNat - 48)
    else if 'a' ≤ c && c ≤ 'f' then some (c.toNat - 87)
    else if 'A' ≤ c && c ≤ 'F' then some (c.toNat - 55)
    else none
  match v with
  | some d => if d < b then some d else none
  | none => none

/-- `parseInt(s, 10)`: skip leading whitespace, read an optional sign,
then the longest prefix of decimal digits, ignoring anything after it;
`none` models the `NaN` result when no digit is found.  The value is
kept as an exact integer: JavaScript's `parseInt` rounds it to a
double, but a rounded double lies within the safe-integer range exactly
when the exact value does (safe integers are representable exactly, and
an integer beyond `2^53 - 1` in magnitude rounds to a double at least
`2^53` in magnitude), so every branch test below is unaffected. -/
def parseIntBase10 (s : String) : Option Int :=
  let cs := skipWs s.data
  let signAndRest : Int × List Char :=
    match cs with
    | '-' :: rest => (-1, rest)
    | '+' :: rest => (1, rest)
    | _ => (1, cs)
  let ds := (signAndRest.2.takeWhile fun c => c.isDigit).filterMap (digitVal 10)
  if (signAndRest.2.takeWhile fun c => c.isDigit).isEmpty then none
  else some (signAndRest.1 * digitsToNat 10 ds)

/-- All characters parsed as digits of base `b`, requiring at least one
digit and no non-digit. -/
def parseAllDigits (b : Nat) (cs : List Char) : Option Nat :=
  if cs.isEmpty then none
  else (cs.mapM (digitVal b)).map (digitsToNat b)

/-- The `StringIntegerLiteral` grammar of `BigInt(string)` after
whitespace trimming: a signed run of decimal digits, or an unsigned
`0x` / `0o` / `0b` prefixed run of digits of that base. -/
def strIntegerLiteral (cs : List Char) : Option Int :=
  match cs with
  | '+' :: rest => (parseAllDigits 10 rest).map Int.ofNat
  | '-' :: rest => (parseAllDigits 10 rest).map fun n => -(Int.ofNat n)
  | '0' :: c :: rest =>
    if c == 'x' || c == 'X' then (parseAllDigits 16 rest).map Int.ofNat
    else if c == 'o' || c == 'O' then (parseAllDigits 8 rest).map Int.ofNat
    else if c == 'b' || c == 'B' then (parseAllDigits 2 rest).map Int.ofNat
    else (parseAllDigits 10 ('0' :: c :: rest)).map Int.ofNat
  | _ => (parseAllDigits 10 cs).map Int.ofNat

/-- `BigInt(s)` on a string: trim whitespace on both ends, accept the
empty string as `0`, otherwise parse an integer literal; any other text
throws a `SyntaxError`. -/
def strToBigInt (s : String) : Except String Int :=
  match (skipWs s.data.reverse).reverse |> skipWs with
  | [] => .ok 0
  | cs =>
    match strIntegerLiteral cs with
    | some n => .ok n
    | none => .error "SyntaxError"

/-- `Number.MAX_SAFE_INTEGER`. -/
def MAX_SAFE_INTEGER : Int := 9007199254740991

/-- `Number.MIN_SAFE_INTEGER`. -/
def MIN_SAFE_INTEGER : Int := -9007199254740991

/-- `parseDbDate`: `val !== null ? moment.utc(val) : null`. -/
def parseDbDate : Option String → ScalarVal
  | none => .null
  | some v => .momentUtc v

/-- `parseDbInteger`: the null guard followed by `parseInt(val, 10)`. -/
def parseDbInteger : Option String → ScalarVal
  | none => .null
  | some v =>
    match parseIntBase10 v with
    | some n => .num n
    | none => .nan

/-- `parseDbBigInteger`: the null guard; then `parseInt(val, 10)` and,
when the parsed value lies within the safe-integer range, that value;
otherwise `BigInt(val)` as a last chance (which throws a `SyntaxError`
on text that is not a valid integer literal).  The `try`/`catch` in the
source only wraps the `parseInt` call, which never throws. -/
def parseDbBigInteger : Option String → Except String ScalarVal
  | none => .ok .null
  | some v =>
    match parseIntBase10 v with
    | some value =>
      if MIN_SAFE_INTEGER ≤ value ∧ value ≤ MAX_SAFE_INTEGER then .ok (.num value)
      else (strToBigInt v).map ScalarVal.big
    | none => (strToBigInt v).map ScalarVal.big

/-- `parseDbFloat`: the null guard followed by `parseFloat(val)`,
represented symbolically. -/
def parseDbFloat : Option String → ScalarVal
  | none => .null
  | some v => .floatOf v

/-- `parseDbBigFloat`: the null guard followed by `new BigNumber(val)`,
represented symbolically. -/
def parseDbBigFloat : Option String → ScalarVal
  | none => .null
  | some v => .bigNumber v

/-- `parseDbBool`: the null guard followed by the literal comparison
chain of the source. -/
def parseDbBool : Option String → ScalarVal
  | none => .null
  | some v =>
    .bool (v == "TRUE" || v == "t" || v == "true" || v == "y" || v == "yes" ||
      v == "on" || v == "1")

/-- The lazy array-parser object returned by `createArrayParser`: the
captured raw text and the per-element callback that `parse()` hands to
the external `postgres-array` tokenizer.  Scalar element decoders may
throw (`parseDbBigInteger`), so the callback is `Except`-valued. -/
structure IArrayParser where
  value : String
  elemFn : Option String → Except String ScalarVal

/-- `createArrayParser(value, transform)`: wrap the text and the
transform; the callback maps a null element to null without invoking
the transform. -/
def createArrayParser (value : String) (transform : Option String → Except String ScalarVal) :
    IArrayParser :=
  { value := value
    elemFn := fun entry =>
      match entry with
      | none => .ok .null
      | some _ => transform entry }

/-- `parseDbDateArray`: null guard, then the lazy array parser over
`parseDbDate`. -/
def parseDbDateArray : Option String → Option IArrayParser
  | none => none
  | some v => some (createArrayParser v (fun e => .ok (parseDbDate e)))

/-- `parseDbIntegerArray`. -/
def parseDbIntegerArray : Option String → Option IArrayParser
  | none => none
  | some v => some (createArrayParser v (fun e => .ok (parseDbInteger e)))

/-- `parseDbBigIntegerArray`. -/
def parseDbBigIntegerArray : Option String → Option IArrayParser
  | none => none
  | some v => some (createArrayParser v parseDbBigInteger)

/-- `parseDbFloatArray`. -/
def parseDbFloatArray : Option String → Option IArrayParser
  | none => none
  | some v => some (createArrayParser v (fun e => .ok (parseDbFloat e)))

/-- `parseDbBigFloatArray`. -/
def parseDbBigFloatArray : Option String → Option IArrayParser
  | none => none
  | some v => some (createArrayParser v (fun e => .ok (parseDbBigFloat e)))

/-- `parseDbBoolArray`. -/
def parseDbBoolArray : Option String → Option IArrayParser
  | none => none
  | some v => some (createArrayParser v (fun e => .ok (parseDbBool e)))

/-- `parseByteAArray`: the element transform is the external
`postgres-bytea` collaborator, taken as a parameter. -/
def parseByteAArray (parseByteA : Option String → Except String ScalarVal) :
    Option String → Option IArrayParser
  | none => none
  | some v => some (createArrayParser v parseByteA)

/-!
## Decoder registry (`registerParsers` and the `initialized` guard)

`pg.types.setTypeParser` associates a parser with an `(oid, format)`
key, overwriting any previous association.  The registered functions are
identified by name. -/

/-- Names of the functions installed by `registerParsers`. -/
inductive ParserId where
  | dbDate | dbDateArray
  | dbInteger | dbBigInteger | dbIntegerArray | dbBigIntegerArray
  | dbFloat | dbFloatArray | dbBigFloat | dbBigFloatArray
  | dbBool | dbBoolArray
  | byteA | byteAArray
deriving DecidableEq

/-- The process-wide registry state: the `(oid, format) → parser` table
owned by `pg.types` plus the module-level guard flag of `parser.ts`. -/
structure TypeRegistry where
  parsers : List ((Nat × String) × ParserId)
  initDone : Bool
deriving DecidableEq

/-- Overwrite-or-append association update. -/
def setKey : List ((Nat × String) × ParserId) → Nat × String → ParserId →
    List ((Nat × String) × ParserId)
  | [], k, p => [(k, p)]
  | (k0, p0) :: rest, k, p =>
    if k0 == k then (k, p) :: rest else (k0, p0) :: setKey rest k p

/-- `pg.types.setTypeParser(oid, format, parser)`; the two-argument form
of the source uses format `"text"`. -/
def setTypeParser (oid : Nat) (format : String) (p : ParserId) (r : TypeRegistry) :
    TypeRegistry :=
  { r with parsers := setKey r.parsers (oid, format) p }

/-- `registerParsers()`: when the guard flag is still unset, install
every parser (the numeric oids are the `pg.types.builtins` constants and
the array oids written literally in the source) and set the flag;
otherwise do nothing. -/
def registerParsers (r : TypeRegistry) : TypeRegistry :=
  if r.initDone then r
  else
    let r := setTypeParser 1082 "text" ParserId.dbDate r        -- DATE
    let r := setTypeParser 1083 "text" ParserId.dbDate r        -- TIME
    let r := setTypeParser 1266 "text" ParserId.dbDate r        -- TIMETZ
    let r := setTypeParser 1114 "text" ParserId.dbDate r        -- TIMESTAMP
    let r := setTypeParser 1184 "text" ParserId.dbDate r        -- TIMESTAMPTZ
    let r := setTypeParser 1182 "text" ParserId.dbDateArray r   -- _date
    let r := setTypeParser 1183 "text" ParserId.dbDateArray r   -- _time
    let r := setTypeParser 1270 "text" ParserId.dbDateArray r   -- _timetz
    let r := setTypeParser 1115 "text" ParserId.dbDateArray r   -- _timestamp
    let r := setTypeParser 1185 "text" ParserId.dbDateArray r   -- _timestamptz
    let r := setTypeParser 21 "text" ParserId.dbInteger r       -- INT2
    let r := setTypeParser 23 "text" ParserId.dbInteger r       -- INT4
    let r := setTypeParser 20 "text" ParserId.dbBigInteger r    -- INT8
    let r := setTypeParser 1005 "text" ParserId.dbIntegerArray r    -- _int2
    let r := setTypeParser 1007 "text" ParserId.dbIntegerArray r    -- _int4
    let r := setTypeParser 1016 "text" ParserId.dbBigIntegerArray r -- _int8
    let r := setTypeParser 700 "text" ParserId.dbFloat r        -- FLOAT4
    let r := setTypeParser 701 "text" ParserId.dbFloat r        -- FLOAT8
    let r := setTypeParser 1700 "text" ParserId.dbBigFloat r    -- NUMERIC
    let r := setTypeParser 790 "text" ParserId.dbBigFloat r     -- MONEY
    let r := setTypeParser 1021 "text" ParserId.dbFloatArray r     -- _float4
    let r := setTypeParser 1022 "text" ParserId.dbBigFloatArray r  -- _float8
    let r := setTypeParser 1231 "text" ParserId.dbBigFloatArray r  -- _numeric
    let r := setTypeParser 791 "text" ParserId.dbBigFloatArray r   -- _money
    let r := setTypeParser 16 "text" ParserId.dbBool r          -- BOOL
    let r := setTypeParser 1000 "text" ParserId.dbBoolArray r
    let r := setTypeParser 17 "binary" ParserId.byteA r         -- BYTEA
    let r := setTypeParser 1001 "text" ParserId.byteAArray r
    { r with initDone := true }

/-!
## Expected-output descriptions

The following recursions express the properties claimed of the builder
outputs (consecutive placeholder numbering, parameter order, raw
inlining, conflict and upsert column collection).  Each takes the
running parameter count `p` where placeholder numbers depend on it: a
bound entry processed with `p` parameters already bound receives the
placeholder `$(p+1)`. -/

/-- Expected VALUES-list entries: the k-th non-raw entry (counting from
one, starting after `p` already-bound parameters) is the placeholder
`$(p+k)`; a raw entry is its raw text verbatim and consumes no
number. -/
def specValuesList (p : Nat) : List (String × JSVal) → List String
  | [] => []
  | (_, v) :: rest =>
    match rawTextOf v with
    | some r => r :: specValuesList p rest
    | none => ("$" ++ toString (p + 1)) :: specValuesList (p + 1) rest

/-- Expected parameter list: the non-raw values in iteration order. -/
def specParams : List (String × JSVal) → List JSVal
  | [] => []
  | (_, v) :: rest =>
    match rawTextOf v with
    | some _ => specParams rest
    | none => v :: specParams rest

/-- Expected UPDATE SET-list entries, numbered like
`specValuesList`. -/
def specSetList (esc : String → String) (p : Nat) : List (String × JSVal) → List String
  | [] => []
  | (c, v) :: rest =>
    match rawTextOf v with
    | some r => (esc c ++ " = " ++ r) :: specSetList esc p rest
    | none => (esc c ++ " = $" ++ toString (p + 1)) :: specSetList esc (p + 1) rest

/-- Expected conflict-target columns: the escaped columns whose names
are conflict keys, in iteration order. -/
def specConflictCols (esc : String → String) (ks : List String)
    (entries : List (String × JSVal)) : List String :=
  entries.filterMap fun e => if ks.contains e.1 then some (esc e.1) else none

/-- Expected upsert assignments for conflict mode `update`: one
assignment per non-conflict-key column, reusing the placeholder number
the column received in the VALUES list (raw entries reuse their raw
text). -/
def specUpsertCols (esc : String → String) (ks : List String) (p : Nat) :
    List (String × JSVal) → List String
  | [] => []
  | (c, v) :: rest =>
    match rawTextOf v with
    | some r =>
      if ks.contains c then specUpsertCols esc ks p rest
      else (esc c ++ " = " ++ r) :: specUpsertCols esc ks p rest
    | none =>
      if ks.contains c then specUpsertCols esc ks (p + 1) rest
      else (esc c ++ " = $" ++ toString (p + 1)) :: specUpsertCols esc ks (p + 1) rest

/-- On any value other than `null`, the dynamic raw-fragment probe
succeeds and agrees with the total classification `rawTextOf`. -/
lemma rawCheck_notNull (v : JSVal) (h : notNull v = true) :
    rawCheck v = .ok (rawTextOf v) := by
  cases v with
  | vNull => simp [notNull] at h
  | vObj fs =>
    cases hf : lookupField fs "raw" <;>
      simp [rawCheck, rawTextOf, typeofJS, getField, hf]
  | _ => simp [rawCheck, rawTextOf, typeofJS]

/-- Characterization of the `insert` column loop without conflict
handling: columns are escaped in order, VALUES entries and parameters
follow the claimed numbering, and the conflict/upsert lists are
untouched. -/
lemma insertLoop_none_char (esc : String → String) (cks : Option (List String))
    (entries : List (String × JSVal)) :
    ∀ acc : InsertAcc, (entries.all fun e => notNull e.2) = true →
      insertLoop esc ConflictAction.None cks entries acc =
        .ok { columns := acc.columns ++ entries.map fun e => esc e.1
              columnValues := acc.columnValues ++ specValuesList acc.params.length entries
              params := acc.params ++ specParams entries
              conflictColumns := acc.conflictColumns
              upsertColumns := acc.upsertColumns } := by
  induction entries with
  | nil => intro acc _; simp [insertLoop, specValuesList, specParams]
  | cons e rest ih =>
    intro acc hall
    obtain ⟨c, v⟩ := e
    rw [List.all_cons, Bool.and_eq_true] at hall
    simp only [insertLoop, insertStep, rawCheck_notNull v hall.1]
    cases hr : rawTextOf v <;>
      simp [ih _ hall.2, specValuesList, specParams, hr, List.append_assoc]

/-- Characterization of the `insert` column loop in conflict mode
`ignore` with a present `conflictKeys` array: as in the plain case, and
the escaped conflict-key columns are collected in order. -/
lemma insertLoop_ignore_char (esc : String → String) (ks : List String)
    (entries : List (String × JSVal)) :
    ∀ acc : InsertAcc, (entries.all fun e => notNull e.2) = true →
      insertLoop esc ConflictAction.Ignore (some ks) entries acc =
        .ok { columns := acc.columns ++ entries.map fun e => esc e.1
              columnValues := acc.columnValues ++ specValuesList acc.params.length entries
              params := acc.params ++ specParams entries
              conflictColumns := acc.conflictColumns ++ specConflictCols esc ks entries
              upsertColumns := acc.upsertColumns } := by
  induction entries with
  | nil => intro acc _; simp [insertLoop, specValuesList, specParams, specConflictCols]
  | cons e rest ih =>
    intro acc hall
    obtain ⟨c, v⟩ := e
    rw [List.all_cons, Bool.and_eq_true] at hall
    simp only [insertLoop, insertStep, rawCheck_notNull v hall.1, includesKey]
    cases hr : rawTextOf v <;> cases hk : ks.contains c <;> simp at hk <;>
      simp [ih _ hall.2, specValuesList, specParams, specConflictCols, List.filterMap_cons,
        hr, hk, List.append_assoc]

/-- Characterization of the `insert` column loop in conflict mode
`update` with a present `conflictKeys` array: as in the plain case, the
escaped conflict-key columns are collected in order, and each
non-conflict-key column contributes an upsert assignment reusing its
VALUES placeholder number (or raw text). -/
lemma insertLoop_update_char (esc : String → String) (ks : List String)
    (entries : List (String × JSVal)) :
    ∀ acc : InsertAcc, (entries.all fun e => notNull e.2) = true →
      insertLoop esc ConflictAction.Update (some ks) entries acc =
        .ok { columns := acc.columns ++ entries.map fun e => esc e.1
              columnValues := acc.columnValues ++ specValuesList acc.params.length entries
              params := acc.params ++ specParams entries
              conflictColumns := acc.conflictColumns ++ specConflictCols esc ks entries
              upsertColumns :=
                acc.upsertColumns ++ specUpsertCols esc ks acc.params.length entries } := by
  induction entries with
  | nil =>
    intro acc _
    simp [insertLoop, specValuesList, specParams, specConflictCols, specUpsertCols]
  | cons e rest ih =>
    intro acc hall
    obtain ⟨c, v⟩ := e
    rw [List.all_cons, Bool.and_eq_true] at hall
    simp only [insertLoop, insertStep, rawCheck_notNull v hall.1, includesKey]
    cases hr : rawTextOf v <;> cases hk : ks.contains c <;> simp at hk <;>
      simp [ih _ hall.2, specValuesList, specParams, specConflictCols, specUpsertCols,
        List.filterMap_cons, hr, hk, List.append_assoc]

/-- Characterization of the `update` SET-clause loop. -/
lemma updateLoop_char (esc : String → String) (entries : List (String × JSVal)) :
    ∀ acc : List String × List JSVal, (entries.all fun e => notNull e.2) = true →
      updateLoop esc entries acc =
        .ok (acc.1 ++ specSetList esc acc.2.length entries, acc.2 ++ specParams entries) := by
  induction entries with
  | nil => intro acc _; simp [updateLoop, specSetList, specParams]
  | cons e rest ih =>
    intro acc hall
    obtain ⟨c, v⟩ := e
    rw [List.all_cons, Bool.and_eq_true] at hall
    simp only [updateLoop, updateStep, rawCheck_notNull v hall.1]
    cases hr : rawTextOf v <;>
      simp [ih _ hall.2, specSetList, specParams, hr, List.append_assoc]

/-- The expected parameter list is exactly the non-raw values in
iteration order. -/
lemma specParams_eq_filter (entries : List (String × JSVal)) :
    specParams entries = (entries.filter fun e => (rawTextOf e.2).isNone).map Prod.snd := by
  induction entries with
  | nil => rfl
  | cons e rest ih =>
    obtain ⟨c, v⟩ := e
    cases hr : rawTextOf v <;> simp [specParams, List.filter_cons, hr, ih]

/-- C1: in the generated INSERT (and the UPDATE SET list), each non-raw
value is appended to the parameter list and receives the placeholder
`$k` with `k` the parameter count after the append, so placeholders run
consecutively `$1..$M` in iteration order over the `M` non-raw entries;
the parameter array is exactly those `M` values in order; raw-fragment
values are inlined verbatim, never bound, never numbered.
(`specValuesList p` / `specSetList esc p` give the j-th non-raw entry,
counting from one after `p` earlier binds, the placeholder `$(p+j)` and
give raw entries their raw text; `specParams` keeps exactly the non-raw
values.) -/
theorem insert_update_placeholder_numbering (esc : String → String) (tableName : String)
    (entries : List (String × JSVal))
    (hnn : (entries.all fun e => notNull e.2) = true) :
    insert esc tableName entries none =
      .ok ("INSERT INTO " ++ esc tableName ++ " (" ++
        joinStrs ", " (entries.map fun e => esc e.1) ++ ") VALUES (" ++
        joinStrs ", " (specValuesList 0 entries) ++ ")", specParams entries)
    ∧ update esc tableName entries none none =
      .ok ("UPDATE " ++ esc tableName ++ " SET " ++ joinStrs ", " (specSetList esc 0 entries),
        specParams entries)
    ∧ specParams entries = (entries.filter fun e => (rawTextOf e.2).isNone).map Prod.snd := by
  refine ⟨?_, ?_, specParams_eq_filter entries⟩
  · simp only [insert, parseConflictAction]
    rw [insertLoop_none_char esc none entries ⟨[], [], [], [], []⟩ hnn]
    simp [addReturningToSQL, joinStrs, String.append_assoc, String.append_empty]
  · simp only [update]
    rw [updateLoop_char esc entries ([], []) hnn]
    simp [addWhereToSQL, addReturningToSQL, joinStrs, String.append_assoc, String.append_empty]

/-- Witness for C1 on a mapping with a raw fragment between two bound
values. -/
theorem insert_update_placeholder_numbering_witness :
    insert escDQ "t"
        [("a", JSVal.vNum 1), ("b", JSVal.vObj [("raw", JSVal.vStr "NOW()")]), ("c", JSVal.vStr "x")]
        none =
      .ok ("INSERT INTO \"t\" (\"a\", \"b\", \"c\") VALUES ($1, NOW(), $2)",
        [JSVal.vNum 1, JSVal.vStr "x"]) :=
  (insert_update_placeholder_numbering escDQ "t"
    [("a", JSVal.vNum 1), ("b", JSVal.vObj [("raw", JSVal.vStr "NOW()")]), ("c", JSVal.vStr "x")]
    rfl).1

/-- C2: the worked upsert scenario produces exactly the claimed SQL and
parameters, and in general conflict mode `ignore` appends
`ON CONFLICT (<conflict columns>) DO NOTHING` while conflict mode
`update` appends `ON CONFLICT (<conflict columns>) DO UPDATE SET` with
one assignment per non-conflict-key column reusing that column's
existing placeholder number (`specUpsertCols` threads the same
parameter counter as `specValuesList`). -/
theorem insert_conflict_clauses (esc : String → String) (tableName : String)
    (entries : List (String × JSVal)) (ks : List String)
    (hnn : (entries.all fun e => notNull e.2) = true) :
    insert escDQ "users" [("id", JSVal.vNum 1), ("name", JSVal.vStr "Bo")]
        (some { conflictAction := some "update", conflictKeys := some ["id"],
                returning := none }) =
      .ok ("INSERT INTO \"users\" (\"id\", \"name\") VALUES ($1, $2)" ++
        " ON CONFLICT (\"id\") DO UPDATE SET \"name\" = $2", [JSVal.vNum 1, JSVal.vStr "Bo"])
    ∧ insert esc tableName entries
        (some { conflictAction := some "ignore", conflictKeys := some ks, returning := none }) =
      .ok ("INSERT INTO " ++ esc tableName ++ " (" ++
        joinStrs ", " (entries.map fun e => esc e.1) ++ ") VALUES (" ++
        joinStrs ", " (specValuesList 0 entries) ++ ") ON CONFLICT (" ++
        joinStrs "," (specConflictCols esc ks entries) ++ ") DO NOTHING", specParams entries)
    ∧ insert esc tableName entries
        (some { conflictAction := some "update", conflictKeys := some ks, returning := none }) =
      .ok ("INSERT INTO " ++ esc tableName ++ " (" ++
        joinStrs ", " (entries.map fun e => esc e.1) ++ ") VALUES (" ++
        joinStrs ", " (specValuesList 0 entries) ++ ") ON CONFLICT (" ++
        joinStrs "," (specConflictCols esc ks entries) ++ ") DO UPDATE SET " ++
        joinStrs ", " (specUpsertCols esc ks 0 entries), specParams entries) := by
  refine ⟨rfl, ?_, ?_⟩
  · simp only [insert, parseConflictAction]
    rw [show ((("ignore" : String) == "update") = false) from rfl]
    simp only [Bool.false_eq_true, if_false, if_pos (show (("ignore" : String) == "ignore") = true from rfl)]
    rw [insertLoop_ignore_char esc ks entries ⟨[], [], [], [], []⟩ hnn]
    simp [addReturningToSQL, joinStrs, String.append_assoc, String.append_empty]
  · simp only [insert, parseConflictAction]
    simp only [if_pos (show (("update" : String) == "update") = true from rfl)]
    rw [insertLoop_update_char esc ks entries ⟨[], [], [], [], []⟩ hnn]
    simp [addReturningToSQL, joinStrs, String.append_assoc, String.append_empty]

/-- Witness for C2: the worked scenario plus an ignore-mode instance. -/
theorem insert_conflict_clauses_witness :
    insert escDQ "users" [("id", JSVal.vNum 1), ("name", JSVal.vStr "Bo")]
        (some { conflictAction := some "ignore", conflictKeys := some ["id"],
                returning := none }) =
      .ok ("INSERT INTO \"users\" (\"id\", \"name\") VALUES ($1, $2)" ++
        " ON CONFLICT (\"id\") DO NOTHING", [JSVal.vNum 1, JSVal.vStr "Bo"]) :=
  (insert_conflict_clauses escDQ "users" [("id", JSVal.vNum 1), ("name", JSVal.vStr "Bo")]
    ["id"] rfl).2.1

/-- C3: a Between condition binds exactly two consecutive parameters —
the condition's `value`, then its `betweenUpperValue` — and emits
`column BETWEEN $(n-1) AND $n` with `n` the parameter count after both
appends; this holds inside any surrounding WHERE clause because the
loop threads the same lists, and WHERE parameters continue the running
SET-clause numbering, as the worked `update` scenario shows. -/
theorem where_between_binding (esc : String → String) (columnName : String)
    (fs : List (String × JSVal)) (rest : List (String × JSVal))
    (conds : List String) (params : List JSVal) (v u : JSVal)
    (hv : lookupField fs "value" = v) (hnv : looseNeNull v = true)
    (hop : lookupField fs "operator" = JSVal.vNum WhereConditionOperator.Between)
    (hu : lookupField fs "betweenUpperValue" = u) :
    whereStep esc columnName (JSVal.vObj fs) conds params =
      .ok (conds ++ [esc columnName ++ " BETWEEN $" ++ toString (params.length + 1) ++
        " AND $" ++ toString (params.length + 2)], params ++ [v, u])
    ∧ whereLoop esc ((columnName, JSVal.vObj fs) :: rest) conds params =
      whereLoop esc rest
        (conds ++ [esc columnName ++ " BETWEEN $" ++ toString (params.length + 1) ++
          " AND $" ++ toString (params.length + 2)]) (params ++ [v, u])
    ∧ update escDQ "t" [("x", JSVal.vNum 5)]
        (some [("id", JSVal.vObj [("value", JSVal.vNum 10), ("operator", JSVal.vNum 6),
          ("betweenUpperValue", JSVal.vNum 20)])]) none =
      .ok ("UPDATE \"t\" SET \"x\" = $1 WHERE \"id\" BETWEEN $2 AND $3",
        [JSVal.vNum 5, JSVal.vNum 10, JSVal.vNum 20]) := by
  have hstep : whereStep esc columnName (JSVal.vObj fs) conds params =
      .ok (conds ++ [esc columnName ++ " BETWEEN $" ++ toString (params.length + 1) ++
        " AND $" ++ toString (params.length + 2)], params ++ [v, u]) := by
    simp [whereStep, typeofJS, getField, hv, hop, hu, hnv, strictEqNum,
      show looseNeNull (JSVal.vNum 6) = true from rfl,
      WhereConditionOperator.Equal, WhereConditionOperator.NotEqual, WhereConditionOperator.Less,
      WhereConditionOperator.LessOrEqual, WhereConditionOperator.Greater,
      WhereConditionOperator.GreaterOrEqual, WhereConditionOperator.Between]
  refine ⟨hstep, ?_, rfl⟩
  simp only [whereLoop, hstep]

/-- Witness for C3 in a two-condition clause with one preceding bound
parameter. -/
theorem where_between_binding_witness :
    whereStep escDQ "id"
        (JSVal.vObj [("value", JSVal.vNum 10), ("operator", JSVal.vNum 6),
          ("betweenUpperValue", JSVal.vNum 20)])
        ["\"a\" = $1"] [JSVal.vNum 7] =
      .ok (["\"a\" = $1", "\"id\" BETWEEN $2 AND $3"],
        [JSVal.vNum 7, JSVal.vNum 10, JSVal.vNum 20]) :=
  (where_between_binding escDQ "id"
    [("value", JSVal.vNum 10), ("operator", JSVal.vNum 6), ("betweenUpperValue", JSVal.vNum 20)]
    [] ["\"a\" = $1"] [JSVal.vNum 7] (JSVal.vNum 10) (JSVal.vNum 20)
    rfl rfl rfl rfl).1

/-- C4: in `update` and `delete` alike, the WHERE condition fragments
are joined with the separator `", "` (a comma), not with `" AND "`. -/
theorem where_comma_join (esc : String → String) (tableName : String)
    (values w : List (String × JSVal)) (c1 c2 d1 d2 : String) (cs ds cvs : List String)
    (ps1 ps2 ps0 : List JSVal)
    (hset : updateLoop esc values ([], []) = .ok (cvs, ps1))
    (hwu : whereLoop esc w [] ps1 = .ok (c1 :: c2 :: cs, ps2))
    (hwd : whereLoop esc w [] [] = .ok (d1 :: d2 :: ds, ps0)) :
    update esc tableName values (some w) none =
      .ok ("UPDATE " ++ esc tableName ++ " SET " ++ joinStrs ", " cvs ++ " WHERE " ++
        (c1 ++ ", " ++ joinStrs ", " (c2 :: cs)), ps2)
    ∧ delete esc tableName (some w) none =
      .ok ("DELETE FROM " ++ esc tableName ++ " WHERE " ++
        (d1 ++ ", " ++ joinStrs ", " (d2 :: ds)), ps0) := by
  constructor
  · simp [update, hset, addWhereToSQL, hwu, addReturningToSQL, joinStrs,
      String.append_assoc, String.append_empty]
  · simp [delete, addWhereToSQL, hwd, addReturningToSQL, joinStrs,
      String.append_assoc, String.append_empty]

/-- Witness for C4 on two equality conditions: the fragments are joined
by a comma and no `AND` appears. -/
theorem where_comma_join_witness :
    update escDQ "t" [("x", JSVal.vNum 9)]
        (some [("a", JSVal.vNum 1), ("b", JSVal.vNum 2)]) none =
      .ok ("UPDATE \"t\" SET \"x\" = $1 WHERE \"a\" = $2, \"b\" = $3",
        [JSVal.vNum 9, JSVal.vNum 1, JSVal.vNum 2])
    ∧ delete escDQ "t" (some [("a", JSVal.vNum 1), ("b", JSVal.vNum 2)]) none =
      .ok ("DELETE FROM \"t\" WHERE \"a\" = $1, \"b\" = $2",
        [JSVal.vNum 1, JSVal.vNum 2]) :=
  where_comma_join escDQ "t" [("x", JSVal.vNum 9)]
    [("a", JSVal.vNum 1), ("b", JSVal.vNum 2)]
    "\"a\" = $2" "\"b\" = $3" "\"a\" = $1" "\"b\" = $2" [] [] ["\"x\" = $1"]
    [JSVal.vNum 9] [JSVal.vNum 9, JSVal.vNum 1, JSVal.vNum 2] [JSVal.vNum 1, JSVal.vNum 2]
    rfl rfl rfl

/-- C10: for a WHERE entry whose value is an object, operator dispatch
happens only when both the `value` and `operator` fields are loosely
non-null; when either is null or undefined — even with the other set —
the condition object is itself appended whole to the parameter list and
compared with `column = $n`; when both are set the object's `value`
field (not the object) becomes the next bound parameter, and the
operator `Equal` encoded as the number `0` is accepted by the loose
check and dispatched. -/
theorem where_dispatch_guard (esc : String → String) (columnName : String)
    (fs : List (String × JSVal)) (conds cs2 : List String) (params ps2 : List JSVal) :
    (looseNeNull (lookupField fs "value") = false →
      whereStep esc columnName (JSVal.vObj fs) conds params =
        .ok (conds ++ [esc columnName ++ " = $" ++ toString (params.length + 1)],
          params ++ [JSVal.vObj fs]))
    ∧ (looseNeNull (lookupField fs "operator") = false →
      whereStep esc columnName (JSVal.vObj fs) conds params =
        .ok (conds ++ [esc columnName ++ " = $" ++ toString (params.length + 1)],
          params ++ [JSVal.vObj fs]))
    ∧ (looseNeNull (lookupField fs "value") = true →
      looseNeNull (lookupField fs "operator") = true →
      whereStep esc columnName (JSVal.vObj fs) conds params = .ok (cs2, ps2) →
      (params ++ [lookupField fs "value"]) <+: ps2)
    ∧ (lookupField fs "operator" = JSVal.vNum WhereConditionOperator.Equal →
      looseNeNull (lookupField fs "value") = true →
      whereStep esc columnName (JSVal.vObj fs) conds params =
        .ok (conds ++ [esc columnName ++ " = $" ++ toString (params.length + 1)],
          params ++ [lookupField fs "value"])) := by
  refine ⟨?_, ?_, ?_, ?_⟩
  · intro h
    simp [whereStep, typeofJS, getField, h]
  · intro h
    simp [whereStep, typeofJS, getField, h, Bool.and_eq_true]
  · intro h1 h2 h3
    rw [whereStep] at h3
    simp only [typeofJS, getField, beq_self_eq_true, if_true, h1, h2, Bool.and_self,
      if_pos] at h3
    cases hop : lookupField fs "operator" with
    | vNull => rw [hop] at h2; simp [looseNeNull] at h2
    | vUndefined => rw [hop] at h2; simp [looseNeNull] at h2
    | _ =>
      rw [hop] at h3
      repeat' split at h3
      all_goals simp at h3
      all_goals obtain ⟨-, h3⟩ := h3
      all_goals subst h3
      all_goals
        first
          | exact List.prefix_refl _
          | exact List.prefix_append _ _
          | exact ⟨[lookupField fs "betweenUpperValue"], by simp⟩
  · intro hop h1
    simp [whereStep, typeofJS, getField, hop, h1, strictEqNum, WhereConditionOperator.Equal,
      show looseNeNull (JSVal.vNum 0) = true from rfl]

/-- Witness for C10: a condition object with a null `value` is pushed
whole and compared with equality; one with `value` set and operator
`Equal` (the number `0`) is dispatched, binding the `value` field. -/
theorem where_dispatch_guard_witness :
    whereStep escDQ "c" (JSVal.vObj [("value", JSVal.vNull), ("operator", JSVal.vNum 0)]) [] [] =
      .ok (["\"c\" = $1"], [JSVal.vObj [("value", JSVal.vNull), ("operator", JSVal.vNum 0)]])
    ∧ whereStep escDQ "c"
        (JSVal.vObj [("value", JSVal.vNum 10), ("operator", JSVal.vNum 0)]) [] [] =
      .ok (["\"c\" = $1"], [JSVal.vNum 10]) :=
  ⟨(where_dispatch_guard escDQ "c" [("value", JSVal.vNull), ("operator", JSVal.vNum 0)]
      [] [] [] []).1 rfl,
   (where_dispatch_guard escDQ "c" [("value", JSVal.vNum 10), ("operator", JSVal.vNum 0)]
      [] [] [] []).2.2.2 rfl rfl⟩

/-- Counterexample to C5 as stated: a `null` column value is not bound
as a parameter — the raw-fragment classification itself throws a
`TypeError` (in JavaScript `typeof null` is `"object"`, so the code
proceeds to read `.raw` off `null`), in `insert` and `update` alike. -/
theorem raw_classification_null_throws :
    insert escDQ "t" [("a", JSVal.vNull)] none = .error "TypeError"
    ∧ update escDQ "t" [("a", JSVal.vNull)] none none = .error "TypeError" :=
  ⟨rfl, rfl⟩

/-- C5 as amended: for every column value other than `null`, the
classification never fails and treats the value as a raw SQL fragment
exactly when it is an object whose `raw` field holds a string; every
other non-null value (undefined included) is classified as a bound
parameter. -/
theorem raw_classification_nonnull (v : JSVal) (s : String) (hv : notNull v = true) :
    rawCheck v = .ok (rawTextOf v)
    ∧ (rawTextOf v = some s ↔ ∃ fs, v = JSVal.vObj fs ∧ lookupField fs "raw" = JSVal.vStr s) := by
  refine ⟨rawCheck_notNull v hv, ?_⟩
  cases v with
  | vObj fs => cases hf : lookupField fs "raw" <;> simp [rawTextOf, hf]
  | _ => simp [rawTextOf]

/-- Witness for C5's amended classification on a raw marker and on a
plain number. -/
theorem raw_classification_nonnull_witness :
    rawCheck (JSVal.vObj [("raw", JSVal.vStr "NOW()")]) = .ok (some "NOW()")
    ∧ rawCheck (JSVal.vNum 3) = .ok none :=
  ⟨(raw_classification_nonnull (JSVal.vObj [("raw", JSVal.vStr "NOW()")]) "NOW()" rfl).1,
   (raw_classification_nonnull (JSVal.vNum 3) "" rfl).1⟩

/-- Counterexample to C6 as stated: on text that is not a valid integer
literal the decoder does not return an arbitrary-precision integer
constructed from the text — `BigInt("abc")` throws a `SyntaxError`. -/
theorem parseDbBigInteger_nonnumeric_throws :
    parseDbBigInteger (some "abc") = .error "SyntaxError" := rfl

/-- C6 as amended: a non-null text whose base-10 parse yields a value
within the safe-integer range decodes to that plain integer; otherwise
(parse not representable or out of range) the decoder returns
`BigInt(text)`, which is an arbitrary-precision integer when the text
is a valid integer literal and a thrown `SyntaxError` otherwise; in
particular `"9007199254740993"` (above the safe-integer maximum)
decodes to the arbitrary-precision integer with that exact value and
`"42"` decodes to the plain integer `42`. -/
theorem parseDbBigInteger_spec (s : String) (n : Int) :
    (parseIntBase10 s = some n → MIN_SAFE_INTEGER ≤ n ∧ n ≤ MAX_SAFE_INTEGER →
      parseDbBigInteger (some s) = .ok (ScalarVal.num n))
    ∧ (parseIntBase10 s = none ∨
        (∃ m, parseIntBase10 s = some m ∧ ¬(MIN_SAFE_INTEGER ≤ m ∧ m ≤ MAX_SAFE_INTEGER)) →
      parseDbBigInteger (some s) = (strToBigInt s).map ScalarVal.big)
    ∧ parseDbBigInteger (some "9007199254740993") = .ok (ScalarVal.big 9007199254740993)
    ∧ parseDbBigInteger (some "42") = .ok (ScalarVal.num 42) := by
  refine ⟨?_, ?_, rfl, rfl⟩
  · intro hp hin
    simp [parseDbBigInteger, hp, hin]
  · rintro (hp | ⟨m, hp, hout⟩)
    · simp [parseDbBigInteger, hp]
    · simp only [parseDbBigInteger, hp]
      rw [if_neg hout]

/-- Witness for C6's amended decoder contract: a safe-range parse and an
out-of-range parse (`2^53` exceeds the safe maximum `2^53 - 1`). -/
theorem parseDbBigInteger_spec_witness :
    parseDbBigInteger (some "42") = .ok (ScalarVal.num 42)
    ∧ parseDbBigInteger (some "9007199254740992") =
        (strToBigInt "9007199254740992").map ScalarVal.big :=
  ⟨(parseDbBigInteger_spec "42" 42).1 rfl (by decide),
   (parseDbBigInteger_spec "9007199254740992" 0).2.1
     (Or.inr ⟨9007199254740992, rfl, by decide⟩)⟩

/-- C7: every repository-defined decoder maps the wire-level null
sentinel to null, and the per-element callback installed by
`createArrayParser` maps a null element to null for every transform —
in particular without invoking the transform, since the result is fixed
independently of it (the byte-array case is quantified over the
external `postgres-bytea` collaborator). -/
theorem decoders_null_passthrough :
    parseDbDate none = ScalarVal.null
    ∧ parseDbInteger none = ScalarVal.null
    ∧ parseDbBigInteger none = .ok ScalarVal.null
    ∧ parseDbFloat none = ScalarVal.null
    ∧ parseDbBigFloat none = ScalarVal.null
    ∧ parseDbBool none = ScalarVal.null
    ∧ parseDbDateArray none = none
    ∧ parseDbIntegerArray none = none
    ∧ parseDbBigIntegerArray none = none
    ∧ parseDbFloatArray none = none
    ∧ parseDbBigFloatArray none = none
    ∧ parseDbBoolArray none = none
    ∧ (∀ t, parseByteAArray t none = none)
    ∧ (∀ v t, (createArrayParser v t).elemFn none = .ok ScalarVal.null) :=
  ⟨rfl, rfl, rfl, rfl, rfl, rfl, rfl, rfl, rfl, rfl, rfl, rfl,
   fun _ => rfl, fun _ _ => rfl⟩

/-- After any call, the guard flag is set. -/
lemma registerParsers_initDone (r : TypeRegistry) : (registerParsers r).initDone = true := by
  by_cases h : r.initDone <;> simp [registerParsers, h]

/-- A call on a state whose guard flag is set is the identity. -/
lemma registerParsers_of_initDone (r : TypeRegistry) (h : r.initDone = true) :
    registerParsers r = r := by
  simp [registerParsers, h]

/-- C8: invoking decoder registration `n + 1` times produces a registry
state identical to invoking it once — the guard flag makes every call
after the first a no-op. -/
theorem registerParsers_idempotent (r : TypeRegistry) (n : Nat) :
    Nat.iterate registerParsers (n + 1) r = registerParsers r := by
  induction n with
  | zero => rfl
  | succ n ih =>
    rw [Function.iterate_succ_apply', ih,
      registerParsers_of_initDone _ (registerParsers_initDone r)]

/-- C9: `withTx` issues `BEGIN` first; a completed unit of work is
followed by `COMMIT` and its result is returned; a failing unit of work
is followed by `ROLLBACK` before its error propagates, and the rollback
outcome `b.rollbackRes` — universally quantified here, including a
failing rollback — never influences what the caller observes: always
the unit of work's original error. -/
theorem withTx_transaction_discipline (ε ρ : Type) (b : TxBehavior ε ρ) (r : ρ) (e : ε) :
    (withTx b).1.head? = some "BEGIN"
    ∧ (b.beginRes = .ok () → b.cbRes = .ok r → b.commitRes = .ok () →
        withTx b = ("BEGIN" :: b.cbTrace ++ ["COMMIT"], .ok r))
    ∧ (b.beginRes = .ok () → b.cbRes = .error e →
        withTx b = ("BEGIN" :: b.cbTrace ++ ["ROLLBACK"], .error e)) := by
  obtain ⟨br, ct, cr, cmr, rr⟩ := b
  refine ⟨?_, ?_, ?_⟩
  · cases br <;> cases cr <;> first | rfl | (cases cmr <;> rfl)
  · intro h1 h2 h3
    cases h1; cases h2; cases h3; rfl
  · intro h1 h2
    cases h1; cases h2; rfl

/-- Witness for C9: a failing unit of work with a failing rollback —
the trace ends in `ROLLBACK` and the caller sees the original error;
and a successful run commits. -/
theorem withTx_transaction_discipline_witness :
    withTx { beginRes := .ok (), cbTrace := ["INSERT 1"],
             cbRes := (.error "boom" : Except String Nat),
             commitRes := .ok (), rollbackRes := .error "rollback failed" } =
      (["BEGIN", "INSERT 1", "ROLLBACK"], .error "boom")
    ∧ withTx { beginRes := .ok (), cbTrace := ["INSERT 1"],
               cbRes := (.ok 7 : Except String Nat),
               commitRes := .ok (), rollbackRes := .ok () } =
      (["BEGIN", "INSERT 1", "COMMIT"], .ok 7) :=
  ⟨(withTx_transaction_discipline String Nat _ 0 "boom").2.2 rfl rfl,
   (withTx_transaction_discipline String Nat _ 7 "x").2.1 rfl rfl rfl⟩

end JsPostgres
